import Mathlib

/-!
# Verification of the SMARTII voice front-end

Shallow embedding of the voice-interaction code of the SMARTII assistant:

* `frontend-v2/public/js/script.js` — the speech-recognition orchestration
  (recognition handlers, `speakText`, `startListening`/`stopListening`) and the
  `BrowserWakeWordDetector` class (wake-phrase matching, `start`/`stop`,
  `addWakeWord`);
* the `FullDuplexAudioEngine` class — VAD thresholding over audio frames,
  `startSpeaking`/`stopSpeaking`/`interrupt` and completion-callback delivery.

Strings are modelled as `List Char`; audio samples as `Rat` (the JS floats are
treated as exact rationals, which is adequate for the threshold-crossing logic
proved here); the browser engines (SpeechRecognition, speechSynthesis) are
modelled by explicit run/pending flags on the state, with their asynchronous
callbacks modelled as discrete events.
-/

set_option maxHeartbeats 1000000

namespace Smartii

/-! ## Wake phrase matcher (`BrowserWakeWordDetector._isWakeWord`)

The source method lower-cases and trims its input, first scans the
`this.wakeWords` list for substring containment (`text.includes(wakeWord)`),
then tests the hard-coded fuzzy regular expressions
`/hey\s+smart/i, /hello\s+smart/i, /hi\s+smart/i, /okay\s+smart/i, /computer/i`
and returns a Boolean. -/

/-- Whitespace test: `Char.isWhitespace` stands in for the JS `\s` class and for the characters
removed by `String.prototype.trim`; the inputs considered here only contain
ordinary spaces, on which the two notions agree. -/
def isWsChar (c : Char) : Bool := c.isWhitespace

/-- Lower-casing, `text.toLowerCase()` (ASCII-adequate). -/
def lowerCs (cs : List Char) : List Char := cs.map Char.toLower

/-- Trimming, `text.trim()`. -/
def trimCs (cs : List Char) : List Char :=
  ((cs.dropWhile isWsChar).reverse.dropWhile isWsChar).reverse

/-- Substring containment, `hay.includes(needle)`. -/
def containsCs : List Char → List Char → Bool
  | needle, [] => needle.isEmpty
  | needle, c :: cs => needle.isPrefixOf (c :: cs) || containsCs needle cs

/-- Gap pattern test, `new RegExp(a + "\\s+" + b).test(text)`: somewhere in `text`, the word `a`
followed by one or more whitespace characters followed by `b`.  Because the
`b` used in the source patterns starts with a non-whitespace character, taking
the maximal whitespace run is equivalent to the regex backtracking search. -/
def gapTest (a b : List Char) : List Char → Bool
  | [] => false
  | c :: cs =>
    (a.isPrefixOf (c :: cs) &&
      (match (c :: cs).drop a.length with
       | [] => false
       | d :: ds => isWsChar d && b.isPrefixOf (ds.dropWhile isWsChar))) ||
    gapTest a b cs

/-- The direct-containment loop of `_isWakeWord`, instrumented to return the
first configured wake word contained in the text (the source loop returns
`true` at exactly the first such word, so `(directMatchFirst ws t).isSome`
is the value of the source loop). -/
def directMatchFirst : List (List Char) → List Char → Option (List Char)
  | [], _ => none
  | w :: ws, t => if containsCs w t then some w else directMatchFirst ws t

/-- The hard-coded fuzzy pattern list of `_isWakeWord`, applied to the already
lower-cased text (the `i` flags are therefore immaterial). -/
def fuzzyTest (t : List Char) : Bool :=
  gapTest "hey".toList "smart".toList t ||
  gapTest "hello".toList "smart".toList t ||
  gapTest "hi".toList "smart".toList t ||
  gapTest "okay".toList "smart".toList t ||
  containsCs "computer".toList t

/-- Normalization, `text.toLowerCase().trim()` — the step at the top of
`_isWakeWord`. -/
def normalizeCs (cs : List Char) : List Char := trimCs (lowerCs cs)

/-- The method `BrowserWakeWordDetector._isWakeWord(text)`, with the mutable
`this.wakeWords` list passed explicitly. -/
def isWakeWord (wakeWords : List (List Char)) (text : List Char) : Bool :=
  let t := normalizeCs text
  (directMatchFirst wakeWords t).isSome || fuzzyTest t

/-- The initial `this.wakeWords` list from the constructor. -/
def defaultWakeWords : List (List Char) :=
  ["hey smartii".toList, "hey smart".toList, "smartii".toList, "computer".toList]

/-- Lower-casing of a stored wake word, `word.toLowerCase()`. -/
def lowerW (w : List Char) : List Char := w.map Char.toLower

/-- The method `BrowserWakeWordDetector.addWakeWord(word)`:
`if (!this.wakeWords.includes(word.toLowerCase())) this.wakeWords.push(word.toLowerCase())`. -/
def addWakeWord (ws : List (List Char)) (w : List Char) : List (List Char) :=
  if lowerW w ∈ ws then ws else ws ++ [lowerW w]

/-! ## The detector object state (`BrowserWakeWordDetector`) -/

/-- The mutable fields of a `BrowserWakeWordDetector` that its matcher and
lifecycle methods can read or write. `recInit` is `this.recognition !== null`
(set by `initialize`). -/
structure DetectorState where
  wakeWords : List (List Char)
  isActive : Bool
  recInit : Bool
  deriving DecidableEq, Repr

/-- The matcher `_isWakeWord` as a method: it reads `this.wakeWords` and performs no
assignment to any field of `this` (the only assignment in its body rebinds the
local parameter `text`), so the method returns the receiver unchanged. -/
def isWakeWordMethod (s : DetectorState) (text : List Char) : Bool × DetectorState :=
  (isWakeWord s.wakeWords text, s)

/-- Behaviour of one call into the underlying browser engine
(`recognition.start()` / `recognition.stop()`): it either returns or throws
(e.g. an InvalidStateError). -/
inductive EngBeh where
  | ok
  | throws
  deriving DecidableEq, Repr

/-- The method `BrowserWakeWordDetector.start()`. The result is `Except.ok` whenever no
exception escapes the method; the source wraps the engine call in
`try/catch` and returns `false` from the catch, so every path is `ok`. -/
def detectorStart (s : DetectorState) (eng : EngBeh) :
    Except Unit (Bool × DetectorState) :=
  if !s.recInit then Except.ok (false, s)
  else if s.isActive then Except.ok (false, s)
  else
    let s1 := { s with isActive := true }
    match eng with
    | .ok => Except.ok (true, s1)
    | .throws => Except.ok (false, s1)

/-- The method `BrowserWakeWordDetector.stop()`: early-returns when inactive, otherwise
clears `isActive` and calls `recognition.stop()` inside a `try/catch` whose
catch block ignores the error. -/
def detectorStop (s : DetectorState) (eng : EngBeh) :
    Except Unit DetectorState :=
  if !s.isActive then Except.ok s
  else
    let s1 := { s with isActive := false }
    match eng with
    | .ok => Except.ok s1
    | .throws => Except.ok s1

/-! ## `FullDuplexAudioEngine`

State fields follow the constructor of the class.  The browser speech
synthesis engine is modelled by `synthSpeaking` (the value of
`window.speechSynthesis.speaking`) and by a queue `pendingEnds` of utterances
whose `onend` events have been produced (by cancellation or natural
completion) but not yet delivered; the utterance ids are a modelling device
naming the closures in that queue — the source itself carries no ids.
The websocket side effects are recorded as effects; the throttled
`_sendAudioToBackend` streaming is elided as it touches none of the state
proved about here. -/

structure EngineState where
  isSpeaking : Bool
  isListening : Bool
  isInterrupted : Bool
  vadThreshold : Rat
  vadConsecutiveFrames : Nat
  vadFrameCount : Nat
  vadDetected : Bool
  vadResetPending : Bool
  playbackIsPlaying : Bool
  synthSpeaking : Bool
  audioCtxInit : Bool
  wsOpen : Bool
  currentUtt : Option Nat
  pendingEnds : List Nat
  nextUttId : Nat
  deriving DecidableEq, Repr

/-- Observable side effects of the engine methods, in execution order. -/
inductive EngEffect where
  | setInterruptedFlag
  | cancelPlayback
  | wsSend (msg : List Char)
  | runInterruptCallbacks
  | runVadCallbacks
  | captureStart
  | speakUtterance
  deriving DecidableEq, Repr

/-- The method `FullDuplexAudioEngine.stopSpeaking()`: cancels the synthesis engine when
it is speaking, clears the speaking flags and the current utterance.  The
`onend` event of a cancelled utterance is still delivered later by the browser,
so it moves into the pending-end queue. -/
def stopSpeakingE (s : EngineState) : EngineState × List EngEffect :=
  let effs := if s.synthSpeaking then [EngEffect.cancelPlayback] else []
  ({ s with
      isSpeaking := false
      playbackIsPlaying := false
      currentUtt := none
      synthSpeaking := false
      pendingEnds := s.pendingEnds ++ s.currentUtt.toList }, effs)

/-- The method `FullDuplexAudioEngine.startListening()`: fails when the audio context is
not initialized, warns and returns `false` when already listening, otherwise
sets the listening flag and resets the VAD frame counter. -/
def startListeningE (s : EngineState) : EngineState × Bool :=
  if !s.audioCtxInit then (s, false)
  else if s.isListening then (s, false)
  else ({ s with isListening := true, vadFrameCount := 0 }, true)

/-- The method `FullDuplexAudioEngine.interrupt(reason)`: sets `isInterrupted`, stops
speaking, notifies the backend, runs the interrupt callbacks, and switches to
listening, in that order. -/
def interruptE (s : EngineState) : EngineState × List EngEffect :=
  let s1 := { s with isInterrupted := true }
  let p2 := stopSpeakingE s1
  let wsEffs := if p2.1.wsOpen then [EngEffect.wsSend "interrupt".toList] else []
  let s3 := (startListeningE p2.1).1
  (s3, EngEffect.setInterruptedFlag :: p2.2 ++ wsEffs ++
        [EngEffect.runInterruptCallbacks, EngEffect.captureStart])

/-- The method `FullDuplexAudioEngine.startSpeaking(text, onEnd)`: returns immediately on
empty text; otherwise stops any ongoing speech, sets `isSpeaking`, clears
`isInterrupted`, installs a fresh utterance and hands it to the synthesis
engine. -/
def startSpeakingE (s : EngineState) (textNonempty : Bool) :
    EngineState × List EngEffect :=
  if !textNonempty then (s, [])
  else
    let p1 := stopSpeakingE s
    let u := p1.1.nextUttId
    ({ p1.1 with
        isSpeaking := true
        isInterrupted := false
        currentUtt := some u
        nextUttId := u + 1
        synthSpeaking := true }, p1.2 ++ [EngEffect.speakUtterance])

/-- Natural completion of the in-flight utterance: the synthesis engine stops
and queues the `onend` event of that utterance for delivery. -/
def finishUtt (s : EngineState) : EngineState :=
  match s.currentUtt with
  | some u => { s with synthSpeaking := false, pendingEnds := s.pendingEnds ++ [u] }
  | none => s

/-- The browser delivers the oldest pending `onend` event, running the
`utterance.onend` closure installed by `startSpeaking`: it clears the speaking
flags and current utterance, notifies the backend, and invokes the `onEnd`
callback supplied to `startSpeaking` iff `!this.isInterrupted` holds at
delivery time.  The middle component reports whether that callback fired. -/
def deliverEnd (s : EngineState) : EngineState × Bool × List EngEffect :=
  match s.pendingEnds with
  | [] => (s, false, [])
  | _u :: rest =>
    let s1 := { s with
        pendingEnds := rest
        isSpeaking := false
        playbackIsPlaying := false
        currentUtt := none }
    let wsEffs := if s.wsOpen then [EngEffect.wsSend "tts_ended".toList] else []
    (s1, !s.isInterrupted, wsEffs)

/-! ### Voice activity detection (`onaudioprocess` and
`_onVoiceActivityDetected`) -/

/-- The constructor default `this.vadThreshold = 0.01`. -/
def defaultVadThreshold : Rat := 1/100

/-- Sum of squares of the samples, the sum inside `_calculateRMS`. -/
def sumSq : List Rat → Rat
  | [] => 0
  | x :: xs => x * x + sumSq xs

/-- The test `this._calculateRMS(buffer) > threshold`.  The source compares
`Math.sqrt(sum / length) > threshold`; for a non-negative threshold this is
equivalent to `threshold² · length < sum`, which is the square-free form used
here (on the empty buffer the source comparison is `NaN > t`, i.e. false, and
this form is false as well). -/
def rmsExceeds (frame : List Rat) (threshold : Rat) : Bool :=
  decide (threshold * threshold * (frame.length : Rat) < sumSq frame)

/-- The method `FullDuplexAudioEngine._onVoiceActivityDetected()`: debounced by the
`vadDetected` flag; inside the guarded block it interrupts when speaking,
notifies the backend, runs the VAD callbacks and schedules the 1-second flag
reset.  The `Nat` component counts `ActivityDetected` emissions (entries into
the guarded block). -/
def onVoiceActivity (s : EngineState) : EngineState × Nat × List EngEffect :=
  if s.vadDetected then (s, 0, [])
  else
    let s1 := { s with vadDetected := true, vadResetPending := true }
    let p2 := if s1.isSpeaking then interruptE s1 else (s1, [])
    let wsEffs := if p2.1.wsOpen then [EngEffect.wsSend "vad_detected".toList] else []
    (p2.1, 1, p2.2 ++ wsEffs ++ [EngEffect.runVadCallbacks])

/-- The `onaudioprocess` VAD logic: ignore frames while not listening;
increment the consecutive-frame counter on frames whose RMS exceeds the
threshold, firing `_onVoiceActivityDetected` and resetting the counter once
`vadConsecutiveFrames` is reached; reset the counter on a frame at or below
the threshold. -/
def processFrame (s : EngineState) (frame : List Rat) :
    EngineState × Nat × List EngEffect :=
  if !s.isListening then (s, 0, [])
  else if rmsExceeds frame s.vadThreshold then
    let c := s.vadFrameCount + 1
    if s.vadConsecutiveFrames ≤ c then
      let p := onVoiceActivity { s with vadFrameCount := c }
      ({ p.1 with vadFrameCount := 0 }, p.2.1, p.2.2)
    else ({ s with vadFrameCount := c }, 0, [])
  else ({ s with vadFrameCount := 0 }, 0, [])

/-- Events relevant to the VAD behaviour: an audio frame arriving, or the
1-second `setTimeout` from `_onVoiceActivityDetected` firing and clearing the
`vadDetected` flag. -/
inductive VadEv where
  | frame (f : List Rat)
  | vadTimerReset
  deriving Repr

/-- One VAD-relevant event; the `Nat` counts `ActivityDetected` emissions. -/
def vadStep (s : EngineState) : VadEv → EngineState × Nat
  | .frame f => ((processFrame s f).1, (processFrame s f).2.1)
  | .vadTimerReset =>
    (if s.vadResetPending
      then { s with vadDetected := false, vadResetPending := false }
      else s, 0)

/-- Run a sequence of VAD events, summing the `ActivityDetected` emissions. -/
def runVad (s : EngineState) : List VadEv → EngineState × Nat
  | [] => (s, 0)
  | e :: es =>
    let p := vadStep s e
    let q := runVad p.1 es
    (q.1, p.2 + q.2)

/-- An initialized, idle engine: the state after the constructor and a
successful `initialize()` (audio context created, VAD defaults
`vadThreshold = 0.01`, `vadConsecutiveFrames = 3`), before any speaking,
with the websocket closed. -/
def engineReady : EngineState where
  isSpeaking := false
  isListening := false
  isInterrupted := false
  vadThreshold := defaultVadThreshold
  vadConsecutiveFrames := 3
  vadFrameCount := 0
  vadDetected := false
  vadResetPending := false
  playbackIsPlaying := false
  synthSpeaking := false
  audioCtxInit := true
  wsOpen := false
  currentUtt := none
  pendingEnds := []
  nextUttId := 0

/-- The state `engineReady` after `startListening()` — the listening state used in the
VAD scenarios. -/
def engineListening : EngineState := (startListeningE engineReady).1

/-- A frame whose RMS (= 0.1) exceeds the default threshold 0.01. -/
def hiFrame : List Rat := [1/10]

/-- A silent frame, below the threshold. -/
def loFrame : List Rat := [0]

/-! ## The `script.js` recognition orchestration

Global flags of the `state` object, plus an explicit lifecycle phase for the
main browser `SpeechRecognition` instance, a run flag `wakeRunning` for the
engine of the wake-word detector, and a flag for a scheduled
recognition-restart timer.  The model assumes `initSpeechRecognition` has run
(`state.recognition` non-null) and `state.synthesis` is available, as both
are established at startup in the source. -/

/-- Lifecycle of the main `SpeechRecognition` engine: `idle` (not started, or
ended), `running` (started, delivering results), `stopping` (after
`recognition.stop()`, before its `onend` fires — the engine contract lets it
still assemble and deliver one final result from the audio captured so
far). -/
inductive RecPhase where
  | idle
  | running
  | stopping
  deriving DecidableEq, Repr

/-- Effect of `recognition.stop()` on the engine phase and on the
pending-final-result flag: a running engine moves to `stopping` and may still
deliver one final result; stopping a non-running engine throws, is caught at
every call site in the source, and changes nothing. -/
def recStop : RecPhase → Bool → RecPhase × Bool
  | RecPhase.running, _ => (RecPhase.stopping, true)
  | p, f => (p, f)

structure SJState where
  isListening : Bool
  isSpeaking : Bool
  isRecognitionActive : Bool
  continuousListening : Bool
  alwaysListening : Bool
  recPhase : RecPhase
  recFlush : Bool
  wakeActive : Bool
  wakeRunning : Bool
  pendingRestart : Bool
  deriving DecidableEq, Repr

/-- The function `stopListening()`: clears the listening flags, stops continuous mode and
calls `recognition.stop()` inside a `try/catch` that ignores errors (UI-only
effects elided). -/
def stopListeningS (s : SJState) : SJState :=
  { s with
      isListening := false
      isRecognitionActive := false
      continuousListening := false
      recPhase := (recStop s.recPhase s.recFlush).1
      recFlush := (recStop s.recPhase s.recFlush).2 }

/-- Side effects of `speakText`, in execution order. -/
inductive SpeakEffect where
  | stopWakeDetector
  | stopRecognition
  | cancelSynth
  | speakReply
  deriving DecidableEq, Repr

/-- The function `speakText(text)` up to handing the utterance to the synthesis engine:
stops the wake-word detector when active, stops recognition when listening
(`recognition.stop()` in a `try/catch`, clearing `isListening` and
`isRecognitionActive`), sets `isSpeaking`, cancels ongoing synthesis and
speaks the new utterance. -/
def speakTextS (s : SJState) : SJState × List SpeakEffect :=
  let p1 := if s.wakeActive
    then ({ s with wakeActive := false, wakeRunning := false },
          [SpeakEffect.stopWakeDetector])
    else (s, [])
  let p2 := if p1.1.isListening
    then ({ p1.1 with
              recPhase := (recStop p1.1.recPhase p1.1.recFlush).1
              recFlush := (recStop p1.1.recPhase p1.1.recFlush).2
              isListening := false
              isRecognitionActive := false }, [SpeakEffect.stopRecognition])
    else (p1.1, [])
  ({ p2.1 with isSpeaking := true },
    p1.2 ++ p2.2 ++ [SpeakEffect.cancelSynth, SpeakEffect.speakReply])

/-- Classification of `recognition.onerror` events in the source handler. -/
inductive RecErr where
  | aborted
  | noSpeech
  | notAllowed
  | permissionDenied
  | other
  deriving DecidableEq, Repr

/-- What the `onerror` handler does beyond updating flags. -/
inductive RecAction where
  | ignored
  | restartScheduled
  | errorReported
  deriving DecidableEq, Repr

/-- The handler `state.recognition.onerror`: always clears `isRecognitionActive` (and the
engine has stopped); `aborted` is ignored; `no-speech` schedules a restart
timer (both the continuous and the single-shot branch of the source schedule
one; the timer bodies re-check the flags when they fire); every other error
calls `stopListening()` and reports an error status. -/
def recognitionOnError (s : SJState) (e : RecErr) : SJState × RecAction :=
  let s0 := { s with
                isRecognitionActive := false
                recPhase := RecPhase.idle
                recFlush := false }
  match e with
  | .aborted => (s0, RecAction.ignored)
  | .noSpeech => ({ s0 with pendingRestart := true }, RecAction.restartScheduled)
  | _ => (stopListeningS s0, RecAction.errorReported)

/-- Events that the handlers and timers of the source can process while no
user activation, interruption, wake-word activation or end of synthesized
speech occurs ("quiet" events).  User activations of listening — a mic
click, Space, Ctrl+Shift+L, the wake-word callback — are deliberately NOT in
this alphabet; they are modelled separately by `startListeningSJ` and take
traces outside the quiet fragment.  `recResult` is the delivery of a
recognition result (a `TranscriptUpdated` event): the `onresult` handler
processes every delivered result unconditionally, and a result can be
delivered while the engine is running or, once after `recognition.stop()`,
as the final flush of audio captured before the stop. -/
inductive QEv where
  | recResult (isFinal : Bool)
  | recEnd
  | recErrNoSpeech
  | recErrAborted
  | restartTimer
  | wakeEnd
  deriving DecidableEq, Repr

/-- One quiet event.  The `Nat` component counts processed recognition
results; the `onresult` handler has no guard, so a result counts whenever
the engine can deliver one (running, or the single pending post-stop flush).
`recEnd` is the `onend` handler: the engine has ended (no further delivery),
the handler clears `isRecognitionActive` and schedules a restart only under
`state.isListening && !state.isSpeaking`.  `restartTimer` models any of the
scheduled restart timers firing; each timer body in the source re-checks at
least `state.isListening` before calling `recognition.start()` (the
individual timers carry further conjuncts — `!isRecognitionActive`,
`continuousListening` — so this model restarts at least as often as the
source), and the call only starts an idle engine (on a non-idle one it
throws).  On a processed final result in single-shot mode the handler calls
`stopListening()`; the deferred `processUserMessage` belongs to the
non-quiet continuation. -/
def stepQ (s : SJState) : QEv → SJState × Nat
  | .recResult isFinal =>
    if s.recPhase = RecPhase.running then
      (if isFinal && !s.continuousListening then stopListeningS s else s, 1)
    else if s.recPhase = RecPhase.stopping ∧ s.recFlush = true then
      let s1 := { s with recFlush := false }
      (if isFinal && !s1.continuousListening then stopListeningS s1 else s1, 1)
    else (s, 0)
  | .recEnd =>
    let s1 := { s with
                  isRecognitionActive := false
                  recPhase := RecPhase.idle
                  recFlush := false }
    if s1.isListening && !s1.isSpeaking
    then ({ s1 with pendingRestart := true }, 0)
    else (s1, 0)
  | .recErrNoSpeech => ((recognitionOnError s RecErr.noSpeech).1, 0)
  | .recErrAborted => ((recognitionOnError s RecErr.aborted).1, 0)
  | .restartTimer =>
    if s.pendingRestart then
      let s1 := { s with pendingRestart := false }
      if s1.isListening then
        match s1.recPhase with
        | RecPhase.idle =>
          ({ s1 with recPhase := RecPhase.running, isRecognitionActive := true }, 0)
        | _ => (s1, 0)
      else (s1, 0)
    else (s, 0)
  | .wakeEnd =>
    let s1 := { s with wakeRunning := false }
    if s1.wakeActive then ({ s1 with wakeRunning := true }, 0) else (s1, 0)

/-- The function `startListening(continuous)` (script.js lines 312-397), the
user activation of listening (mic click, Space, Ctrl+Shift+L, the wake-word
callback): it performs NO `isSpeaking` check.  When recognition is flagged
active it stops the current engine and schedules a retry (modelled as the
stop alone; the retry is a later activation event).  Otherwise it sets
`continuousListening` and `isListening` and calls `recognition.start()`:
on an idle engine the call succeeds and recognition runs; on a non-idle
engine it throws and the catch block resets the listening flags (and
schedules a retry). -/
def startListeningSJ (s : SJState) (continuous : Bool) : SJState :=
  if s.isRecognitionActive then
    { s with
        recPhase := (recStop s.recPhase s.recFlush).1
        recFlush := (recStop s.recPhase s.recFlush).2 }
  else
    let s1 := { s with continuousListening := continuous, isListening := true }
    match s1.recPhase with
    | RecPhase.idle =>
      { s1 with recPhase := RecPhase.running, isRecognitionActive := true }
    | _ => { s1 with isListening := false, isRecognitionActive := false }

/-- Run a sequence of quiet events, summing processed recognition results. -/
def runQ (s : SJState) : List QEv → SJState × Nat
  | [] => (s, 0)
  | e :: es =>
    let p := stepQ s e
    let q := runQ p.1 es
    (q.1, p.2 + q.2)

/-- One transient-failure round: a `no-speech` engine failure followed by its
restart timer firing. -/
def noSpeechCycle (s : SJState) : SJState × RecAction :=
  let p := recognitionOnError s RecErr.noSpeech
  ((stepQ p.1 QEv.restartTimer).1, p.2)

/-- Runs `n` consecutive transient-failure rounds, returning the action taken
for each failure in order. -/
def runNoSpeechFailures (s : SJState) : Nat → List RecAction
  | 0 => []
  | n + 1 =>
    let p := noSpeechCycle s
    p.2 :: runNoSpeechFailures p.1 n

/-- A listening state of the `script.js` system: continuous listening with the
recognition engine running and the wake-word detector active. -/
def sjListening : SJState where
  isListening := true
  isSpeaking := false
  isRecognitionActive := true
  continuousListening := true
  alwaysListening := true
  recPhase := RecPhase.running
  recFlush := false
  wakeActive := true
  wakeRunning := true
  pendingRestart := false

/-- A state reachable after `speakText` has ended speech with continuous mode
still configured: not listening, but `continuousListening` is still set
(`speakText` clears `isListening` without touching `continuousListening`). -/
def sjIdleContinuous : SJState where
  isListening := false
  isSpeaking := false
  isRecognitionActive := false
  continuousListening := true
  alwaysListening := true
  recPhase := RecPhase.idle
  recFlush := false
  wakeActive := false
  wakeRunning := false
  pendingRestart := false

/-- The state right after `speakText` from the listening state: speaking,
with the recognition engine stopping and its final flush still pending. -/
def sjSpeakTrace1 : SJState := (speakTextS sjListening).1

/-- `sjSpeakTrace1` after the stopped engine has fired `onend`: the engine is
idle, so a user activation can start it again. -/
def sjSpeakTrace2 : SJState := (stepQ sjSpeakTrace1 QEv.recEnd).1

/-- `sjSpeakTrace2` after a mic click (`startListening(false)`) while the
reply is still being synthesized: recognition runs although `isSpeaking` is
still set. -/
def sjSpeakTrace3 : SJState := startListeningSJ sjSpeakTrace2 false

/-- An initialized, active wake-word detector. -/
def detectorActive : DetectorState where
  wakeWords := defaultWakeWords
  isActive := true
  recInit := true

/-- An initialized, inactive wake-word detector. -/
def detectorInactive : DetectorState where
  wakeWords := defaultWakeWords
  isActive := false
  recInit := true

/-- The listening engine just after an `ActivityDetected` emission: the
`vadDetected` debounce flag is set and its 1-second reset is pending. -/
def engineDebouncing : EngineState :=
  { engineListening with vadDetected := true, vadResetPending := true }

/-- The invariant holding from the moment `speakText` has stopped the audio
input until an interruption, a user activation or the end of speech: not
listening, the recognition engine not in its running phase, speaking, and
the wake-word detector stopped. -/
def QuietInv (s : SJState) : Prop :=
  s.isListening = false ∧ s.recPhase ≠ RecPhase.running ∧ s.isSpeaking = true ∧
  s.wakeActive = false ∧ s.wakeRunning = false

/-! ## Helper lemmas -/

theorem startListeningE_isInterrupted (s : EngineState) :
    (startListeningE s).1.isInterrupted = s.isInterrupted := by
  unfold startListeningE
  split
  · rfl
  · split <;> rfl

theorem startListeningE_isSpeaking (s : EngineState) :
    (startListeningE s).1.isSpeaking = s.isSpeaking := by
  unfold startListeningE
  split
  · rfl
  · split <;> rfl

theorem startListeningE_isListening (s : EngineState) (h : s.audioCtxInit = true) :
    (startListeningE s).1.isListening = true := by
  unfold startListeningE
  rw [h]
  cases hl : s.isListening <;> simp [hl]

theorem deliverEnd_fired_of_interrupted (s : EngineState)
    (h : s.isInterrupted = true) : (deliverEnd s).2.1 = false := by
  unfold deliverEnd
  rcases hp : s.pendingEnds with _ | ⟨u, rest⟩ <;> simp [h]

theorem interruptE_isInterrupted (s : EngineState) :
    (interruptE s).1.isInterrupted = true := by
  unfold interruptE
  rw [startListeningE_isInterrupted]
  rfl

theorem hiFrame_exceeds : rmsExceeds hiFrame defaultVadThreshold = true := by
  unfold rmsExceeds defaultVadThreshold hiFrame
  norm_num [sumSq]

theorem loFrame_not_exceeds : rmsExceeds loFrame defaultVadThreshold = false := by
  unfold rmsExceeds defaultVadThreshold loFrame
  norm_num [sumSq]

/-! ## C3 — completion suppression after cancellation -/

/-- C3 counterexample: the claim that the completion of a cancelled utterance
never fires afterwards is false.  From the initialized engine, `startSpeaking`
begins an utterance, `stopSpeaking()` cancels it while in progress, and when
the browser then delivers the `onend` event of the cancelled utterance the `onEnd`
callback supplied to `startSpeaking` still fires: suppression only checks the
`isInterrupted` flag, which plain `stopSpeaking` does not set, and no
utterance id exists in the code. -/
theorem stopSpeaking_completion_fires :
    (deliverEnd (stopSpeakingE (startSpeakingE engineReady true).1).1).2.1 = true := by
  decide

/-- C3 amended: completion suppression is keyed by the engine-wide
`isInterrupted` flag, not by an utterance id — an utterance cancelled via
`interrupt()` never fires its completion when its end event is next delivered
(no new `startSpeaking` having reset the flag), while an utterance cancelled
via `stopSpeaking()` alone may still fire its completion. -/
theorem interrupt_suppresses_completion (s : EngineState) :
    (interruptE s).1.isInterrupted = true ∧
    (deliverEnd (interruptE s).1).2.1 = false := by
  refine ⟨interruptE_isInterrupted s, ?_⟩
  exact deliverEnd_fired_of_interrupted _ (interruptE_isInterrupted s)

/-! ## C5 — VAD retriggering -/

/-- C5 counterexample: the VAD is not edge-triggered.  With the default
configuration, a run of six above-threshold frames with the 1-second
`vadDetected` reset timer firing in between produces two `ActivityDetected`
emissions although no frame with RMS below the threshold is ever processed. -/
theorem vad_refire_without_silence :
    (runVad engineListening
      (List.replicate 3 (VadEv.frame hiFrame) ++ [VadEv.vadTimerReset] ++
       List.replicate 3 (VadEv.frame hiFrame))).2 = 2 ∧
    rmsExceeds hiFrame defaultVadThreshold = true := by
  refine ⟨?_, hiFrame_exceeds⟩
  simp [runVad, vadStep, processFrame, onVoiceActivity, engineListening,
        startListeningE, engineReady, hiFrame_exceeds]

theorem processFrame_detected (s : EngineState) (f : List Rat)
    (h : s.vadDetected = true) :
    (processFrame s f).1.vadDetected = true ∧ (processFrame s f).2.1 = 0 := by
  simp only [processFrame, onVoiceActivity]
  split
  · exact ⟨h, rfl⟩
  · split
    · split
      · simp [h]
      · simp [h]
    · simp [h]

/-- C5 amended: after an `ActivityDetected` emission, further emissions are
suppressed exactly while the `vadDetected` flag is set — which is cleared by
a 1-second timer, not by a below-threshold frame.  While the flag is set, no
sequence of audio frames (of any amplitude) produces an emission. -/
theorem vad_debounce_suppression (s : EngineState) (frames : List (List Rat))
    (h : s.vadDetected = true) :
    (runVad s (frames.map VadEv.frame)).2 = 0 := by
  induction frames generalizing s with
  | nil => simp [runVad]
  | cons f fs ih =>
    have hp := processFrame_detected s f h
    simp only [List.map, runVad, vadStep]
    rw [hp.2, ih _ hp.1]

/-- Witness for `vad_debounce_suppression` at the debouncing state and three
loud frames. -/
theorem vad_debounce_suppression_witness :
    engineDebouncing.vadDetected = true ∧
    (runVad engineDebouncing
      ((List.replicate 3 hiFrame).map VadEv.frame)).2 = 0 :=
  ⟨by decide, vad_debounce_suppression engineDebouncing
      (List.replicate 3 hiFrame) (by decide)⟩

/-! ## C6 — restart rate limiting -/

/-- C6 counterexample: six consecutive transient (`no-speech`) recognition
failures in continuous-listening mode each yield another scheduled restart —
in particular the sixth failure schedules a restart rather than escalating to
a fatal `RateLimited` error.  The handler is time-independent (it keeps no
counter or window), so this holds no matter how quickly the failures arrive,
in particular within 10 seconds. -/
theorem no_rate_limit_escalation :
    runNoSpeechFailures sjListening 6 =
      List.replicate 6 RecAction.restartScheduled := by
  decide

theorem noSpeechCycle_step (s : SJState) (h : s.isListening = true) :
    (noSpeechCycle s).1.isListening = true ∧
    (noSpeechCycle s).2 = RecAction.restartScheduled := by
  unfold noSpeechCycle recognitionOnError stepQ
  simp [h]

/-- C6 amended: the code has no restart budget — while listening, every
`no-speech` failure schedules another restart, for any number of consecutive
failures; there is no sliding window, no restart counter and no `RateLimited`
escalation (non-aborted errors of other kinds instead stop listening
immediately). -/
theorem noSpeech_always_restarts (n : Nat) (s : SJState)
    (h : s.isListening = true) :
    runNoSpeechFailures s n = List.replicate n RecAction.restartScheduled := by
  induction n generalizing s with
  | zero => rfl
  | succ m ih =>
    have hc := noSpeechCycle_step s h
    simp only [runNoSpeechFailures, List.replicate, hc.2]
    rw [ih _ hc.1]

/-- Witness for `noSpeech_always_restarts` with seven failures from the
listening state. -/
theorem noSpeech_always_restarts_witness :
    sjListening.isListening = true ∧
    runNoSpeechFailures sjListening 7 =
      List.replicate 7 RecAction.restartScheduled :=
  ⟨by decide, noSpeech_always_restarts 7 sjListening (by decide)⟩

/-! ## C4 — VAD confirm-frame counting -/

/-- C4: with threshold 0.01 and 3 confirm frames, two above-threshold frames
followed by one below reset the counter and emit nothing, while three
consecutive above-threshold frames emit exactly one `ActivityDetected`. -/
theorem vad_confirm_frames (s : EngineState) (f1 f2 f3 g1 g2 g3 : List Rat)
    (hl : s.isListening = true) (hsp : s.isSpeaking = false)
    (hd : s.vadDetected = false) (hc : s.vadFrameCount = 0)
    (hth : s.vadThreshold = 1/100) (hcf : s.vadConsecutiveFrames = 3)
    (h1 : rmsExceeds f1 (1/100) = true) (h2 : rmsExceeds f2 (1/100) = true)
    (h3 : rmsExceeds f3 (1/100) = false)
    (k1 : rmsExceeds g1 (1/100) = true) (k2 : rmsExceeds g2 (1/100) = true)
    (k3 : rmsExceeds g3 (1/100) = true) :
    ((runVad s [VadEv.frame f1, VadEv.frame f2, VadEv.frame f3]).2 = 0 ∧
     (runVad s [VadEv.frame f1, VadEv.frame f2, VadEv.frame f3]).1.vadFrameCount = 0) ∧
    (runVad s [VadEv.frame g1, VadEv.frame g2, VadEv.frame g3]).2 = 1 := by
  obtain ⟨a1, a2, a3, a4, a5, a6, a7, a8, a9, a10, a11, a12, a13, a14, a15⟩ := s
  simp only at hl hsp hd hc hth hcf
  subst hl hsp hd hc hth hcf
  simp only [one_div] at h1 h2 h3 k1 k2 k3
  simp [runVad, vadStep, processFrame, onVoiceActivity, h1, h2, h3, k1, k2, k3]

/-- Witness for `vad_confirm_frames` at the listening engine with concrete
loud and silent frames. -/
theorem vad_confirm_frames_witness :
    ((runVad engineListening
        [VadEv.frame hiFrame, VadEv.frame hiFrame, VadEv.frame loFrame]).2 = 0 ∧
     (runVad engineListening
        [VadEv.frame hiFrame, VadEv.frame hiFrame, VadEv.frame loFrame]).1.vadFrameCount = 0) ∧
    (runVad engineListening
        [VadEv.frame hiFrame, VadEv.frame hiFrame, VadEv.frame hiFrame]).2 = 1 :=
  vad_confirm_frames engineListening hiFrame hiFrame loFrame hiFrame hiFrame hiFrame
    rfl rfl rfl rfl rfl rfl
    hiFrame_exceeds hiFrame_exceeds loFrame_not_exceeds
    hiFrame_exceeds hiFrame_exceeds hiFrame_exceeds

/-! ## C7 — wake phrase matching -/

/-- C7 counterexample: the matcher does not return the matched phrase.  For
the input "HEY   Smartii please" with the configured phrase "hey smartii",
the direct-containment scan finds no configured phrase in the normalized text
(the extra whitespace defeats substring containment of "hey smartii"), yet
`_isWakeWord` still answers `true` — via the fuzzy pattern `/hey\s+smart/i` —
and yields only that Boolean, not the phrase "hey smartii" the claim says is
returned. -/
theorem matcher_returns_no_phrase :
    directMatchFirst ["hey smartii".toList]
      (normalizeCs "HEY   Smartii please".toList) = none ∧
    isWakeWord ["hey smartii".toList] "HEY   Smartii please".toList = true := by
  exact ⟨rfl, rfl⟩

/-- C7 amended: `_isWakeWord` returns a Boolean, not a phrase: with the wake
phrase "hey smartii" configured it answers `true` on "HEY   Smartii please"
(mixed case and extra whitespace, matched by the fuzzy pattern rather than by
phrase containment) and `false` on "he smart" — also under the full
constructor wake-word list. -/
theorem matcher_boolean_results :
    isWakeWord ["hey smartii".toList] "HEY   Smartii please".toList = true ∧
    isWakeWord ["hey smartii".toList] "he smart".toList = false ∧
    isWakeWord defaultWakeWords "he smart".toList = false := by
  exact ⟨rfl, rfl, rfl⟩

/-! ## C8 — matcher purity -/

/-- C8: the wake phrase matcher is pure and stateless — a call leaves the
detector state unchanged, repeating the call yields the same answer, and the
answer depends only on the configured wake-word list (and the fixed fuzzy
patterns), not on any other detector state. -/
theorem matcher_pure_stateless (s : DetectorState) (t : List Char) :
    (isWakeWordMethod s t).2 = s ∧
    (isWakeWordMethod ((isWakeWordMethod s t).2) t).1 = (isWakeWordMethod s t).1 ∧
    ∀ s2 : DetectorState, s2.wakeWords = s.wakeWords →
      (isWakeWordMethod s2 t).1 = (isWakeWordMethod s t).1 := by
  refine ⟨rfl, rfl, ?_⟩
  intro s2 h
  simp [isWakeWordMethod, h]

/-- Witness for `matcher_pure_stateless`: two detectors sharing the word list
but differing in activity give the same answer, with state untouched. -/
theorem matcher_pure_stateless_witness :
    (isWakeWordMethod detectorActive "hey smartii wake up".toList).2 =
      detectorActive ∧
    (isWakeWordMethod detectorInactive "hey smartii wake up".toList).1 =
      (isWakeWordMethod detectorActive "hey smartii wake up".toList).1 :=
  ⟨(matcher_pure_stateless detectorActive "hey smartii wake up".toList).1,
   (matcher_pure_stateless detectorActive "hey smartii wake up".toList).2.2
     detectorInactive rfl⟩

/-! ## C9 — lifecycle idempotence -/

/-- C9 counterexample: `start()` on an already-active detector is not treated
as success — it returns `false`, the same indicator every failure path
returns, while a genuinely successful start returns `true`; and
`stopListening()` on an inactive session does not leave the state unchanged
when a lingering `continuousListening` flag is set (reachable via
`speakText`, which clears `isListening` but not `continuousListening`). -/
theorem start_on_active_returns_false :
    (detectorStart detectorInactive EngBeh.ok).toOption.map Prod.fst =
      some true ∧
    (detectorStart detectorActive EngBeh.ok).toOption.map Prod.fst =
      some false ∧
    stopListeningS sjIdleContinuous ≠ sjIdleContinuous := by
  refine ⟨rfl, rfl, ?_⟩
  intro h
  exact absurd (congrArg SJState.continuousListening h) (by decide)

/-- C9 amended: `stop()` on an inactive wake-word detector and `start()` on
an active one are no-ops that never throw (all engine exceptions are caught),
but `start()` on an active detector reports `false` rather than success;
`stopListening()` never throws and is idempotent, and on an inactive session
with no lingering mode flags it is a complete no-op. -/
theorem idempotent_lifecycle (d1 d2 : DetectorState) (e1 e2 : EngBeh)
    (s : SJState)
    (h1 : d1.isActive = false) (h2 : d2.isActive = true)
    (hs : s.isListening = false) (ha : s.isRecognitionActive = false)
    (hc : s.continuousListening = false) (hr : s.recPhase ≠ RecPhase.running) :
    detectorStop d1 e1 = Except.ok d1 ∧
    detectorStart d2 e2 = Except.ok (false, d2) ∧
    stopListeningS s = s ∧
    ∀ s2 : SJState, stopListeningS (stopListeningS s2) = stopListeningS s2 := by
  refine ⟨?_, ?_, ?_, ?_⟩
  · simp [detectorStop, h1]
  · cases hb : d2.recInit <;> simp [detectorStart, h2, hb]
  · obtain ⟨b1, b2, b3, b4, b5, b6, b7, b8, b9, b10⟩ := s
    simp only at hs ha hc hr
    subst hs ha hc
    cases b6 with
    | idle => rfl
    | running => exact absurd rfl hr
    | stopping => rfl
  · intro s2
    obtain ⟨b1, b2, b3, b4, b5, b6, b7, b8, b9, b10⟩ := s2
    cases b6 <;> rfl

/-- Witness for `idempotent_lifecycle` at concrete detector and session
states. -/
theorem idempotent_lifecycle_witness :
    detectorStop detectorInactive EngBeh.throws = Except.ok detectorInactive ∧
    detectorStart detectorActive EngBeh.throws =
      Except.ok (false, detectorActive) ∧
    stopListeningS (stopListeningS sjIdleContinuous) =
      stopListeningS sjIdleContinuous :=
  have h := idempotent_lifecycle detectorInactive detectorActive
    EngBeh.throws EngBeh.throws (stopListeningS sjIdleContinuous)
    rfl rfl rfl rfl rfl (by decide)
  ⟨h.1, h.2.1, h.2.2.1⟩

/-! ## C10 — adding wake words -/

/-- C10: `addWakeWord` is idempotent and case-normalizing: if the lowercased
word occurs at most once beforehand (as in every state reachable from the
constructor list), it occurs exactly once afterwards, and a repeated add of
the same word in any letter case leaves the list unchanged. -/
theorem addWakeWord_idempotent (ws : List (List Char)) (w v : List Char)
    (hcount : ws.count (lowerW w) ≤ 1) (hv : lowerW v = lowerW w) :
    (addWakeWord ws w).count (lowerW w) = 1 ∧
    addWakeWord (addWakeWord ws w) v = addWakeWord ws w := by
  unfold addWakeWord
  rw [hv]
  by_cases hm : lowerW w ∈ ws
  · simp only [hm, if_pos]
    refine ⟨?_, by simp [hm]⟩
    have hpos : 0 < ws.count (lowerW w) := List.count_pos_iff.mpr hm
    omega
  · simp only [hm, if_neg, not_false_iff]
    constructor
    · simp [List.count_append, List.count_eq_zero.mpr hm]
    · simp

/-- Witness for `addWakeWord_idempotent`: adding "Jarvis" to the constructor
list, then "JARVIS" again. -/
theorem addWakeWord_idempotent_witness :
    (addWakeWord defaultWakeWords "Jarvis".toList).count
      (lowerW "Jarvis".toList) = 1 ∧
    addWakeWord (addWakeWord defaultWakeWords "Jarvis".toList)
      "JARVIS".toList = addWakeWord defaultWakeWords "Jarvis".toList :=
  addWakeWord_idempotent defaultWakeWords "Jarvis".toList "JARVIS".toList
    (by decide) (by decide)

/-! ## C2 — barge-in ordering -/

/-- C2: when `interrupt()` arrives while the engine is speaking (as from a
VAD `ActivityDetected`), playback cancellation happens strictly before
capture is started, the pending completion is suppressed (the
`isInterrupted` flag is raised before the cancellation executes and holds
when capture starts and thereafter, so the completion callback of the
cancelled utterance can no longer fire), and the engine ends up listening and not
speaking. -/
theorem interrupt_ordering (s : EngineState)
    (hsp : s.synthSpeaking = true) (hac : s.audioCtxInit = true) :
    EngEffect.cancelPlayback ∈ (interruptE s).2 ∧
    EngEffect.captureStart ∈ (interruptE s).2 ∧
    (interruptE s).2.indexOf EngEffect.cancelPlayback <
      (interruptE s).2.indexOf EngEffect.captureStart ∧
    (interruptE s).1.isInterrupted = true ∧
    (deliverEnd (interruptE s).1).2.1 = false ∧
    (interruptE s).1.isListening = true ∧
    (interruptE s).1.isSpeaking = false := by
  have hint : (interruptE s).1.isInterrupted = true := interruptE_isInterrupted s
  have heff : (interruptE s).2 =
      EngEffect.setInterruptedFlag :: EngEffect.cancelPlayback ::
        ((if s.wsOpen then [EngEffect.wsSend "interrupt".toList] else []) ++
         [EngEffect.runInterruptCallbacks, EngEffect.captureStart]) := by
    simp [interruptE, stopSpeakingE, hsp]
  have hlst : (interruptE s).1.isListening = true := by
    unfold interruptE
    exact startListeningE_isListening _ (by simp [stopSpeakingE, hac])
  have hspk : (interruptE s).1.isSpeaking = false := by
    unfold interruptE
    rw [startListeningE_isSpeaking]
    rfl
  refine ⟨?_, ?_, ?_, hint, deliverEnd_fired_of_interrupted _ hint, hlst, hspk⟩
  · rw [heff]; simp
  · rw [heff]; cases hw : s.wsOpen <;> simp [hw]
  · rw [heff]; cases hw : s.wsOpen <;> simp [hw]

/-- Witness for `interrupt_ordering` at a concrete speaking state. -/
theorem interrupt_ordering_witness :
    EngEffect.cancelPlayback ∈ (interruptE (startSpeakingE engineReady true).1).2 ∧
    EngEffect.captureStart ∈ (interruptE (startSpeakingE engineReady true).1).2 ∧
    (interruptE (startSpeakingE engineReady true).1).2.indexOf
        EngEffect.cancelPlayback <
      (interruptE (startSpeakingE engineReady true).1).2.indexOf
        EngEffect.captureStart ∧
    (interruptE (startSpeakingE engineReady true).1).1.isInterrupted = true ∧
    (deliverEnd (interruptE (startSpeakingE engineReady true).1).1).2.1 = false ∧
    (interruptE (startSpeakingE engineReady true).1).1.isListening = true ∧
    (interruptE (startSpeakingE engineReady true).1).1.isSpeaking = false :=
  interrupt_ordering (startSpeakingE engineReady true).1 rfl rfl

/-! ## C1 — mutual exclusion of speaking and transcript processing -/

theorem stepQ_quiet (s : SJState) (e : QEv) (h : QuietInv s) :
    QuietInv (stepQ s e).1 ∧
    (stepQ s e).2 + ((stepQ s e).1.recFlush).toNat ≤ (s.recFlush).toNat := by
  obtain ⟨h1, h2, h3, h4, h5⟩ := h
  cases e with
  | recResult b =>
    simp only [stepQ]
    rw [if_neg h2]
    by_cases hsf : s.recPhase = RecPhase.stopping ∧ s.recFlush = true
    · obtain ⟨hph, hfl⟩ := hsf
      rw [if_pos ⟨hph, hfl⟩]
      split <;>
        simp [stopListeningS, recStop, QuietInv, hph, hfl, h1, h3, h4, h5]
    · rw [if_neg hsf]
      exact ⟨⟨h1, h2, h3, h4, h5⟩, by simp⟩
  | recEnd =>
    refine ⟨?_, ?_⟩ <;> simp [stepQ, QuietInv, h1, h2, h3, h4, h5]
  | recErrNoSpeech =>
    refine ⟨?_, ?_⟩ <;>
      simp [stepQ, recognitionOnError, QuietInv, h1, h2, h3, h4, h5]
  | recErrAborted =>
    refine ⟨?_, ?_⟩ <;>
      simp [stepQ, recognitionOnError, QuietInv, h1, h2, h3, h4, h5]
  | restartTimer =>
    by_cases hp : s.pendingRestart = true <;>
      simp [stepQ, hp, QuietInv, h1, h2, h3, h4, h5]
  | wakeEnd =>
    simp [stepQ, QuietInv, h1, h2, h3, h4, h5]

theorem runQ_quiet (s : SJState) (t : List QEv) (h : QuietInv s) :
    QuietInv (runQ s t).1 ∧
    (runQ s t).2 + ((runQ s t).1.recFlush).toNat ≤ (s.recFlush).toNat := by
  induction t generalizing s with
  | nil =>
    refine ⟨h, ?_⟩
    simp only [runQ]
    omega
  | cons e es ih =>
    obtain ⟨hi, hc2⟩ := stepQ_quiet s e h
    obtain ⟨hi2, hc3⟩ := ih _ hi
    refine ⟨hi2, ?_⟩
    simp only [runQ]
    omega

theorem speakTextS_quiet (s : SJState)
    (hrl : s.recPhase = RecPhase.running → s.isListening = true)
    (hwr : s.wakeRunning = true → s.wakeActive = true) :
    QuietInv (speakTextS s).1 := by
  unfold QuietInv speakTextS
  cases hwk : s.wakeActive <;> cases hl : s.isListening <;>
    cases hph : s.recPhase <;> simp_all [recStop]

/-- C1 counterexample: the unrestricted claim is false of the code.  From the
continuous-listening state, `speakText` stops the recognition engine, yet a
recognition result is still processed while `isSpeaking` holds, in two ways,
neither preceded by an interruption or an end of speech: (1) the stopped
engine delivers the final result assembled from the audio captured before
the stop and the unguarded `onresult` handler processes it; (2) after the
engine `onend`, a mic click (`startListening`, which performs no
`isSpeaking` check and does not cancel synthesis) restarts recognition while
the reply is still playing, and the next delivered result is processed. -/
theorem transcript_processed_while_speaking :
    sjSpeakTrace1.isSpeaking = true ∧
    (stepQ sjSpeakTrace1 (QEv.recResult true)).2 = 1 ∧
    (stepQ sjSpeakTrace1 (QEv.recResult true)).1.isSpeaking = true ∧
    sjSpeakTrace3.isSpeaking = true ∧
    sjSpeakTrace3.recPhase = RecPhase.running ∧
    (stepQ sjSpeakTrace3 (QEv.recResult false)).2 = 1 ∧
    (stepQ sjSpeakTrace3 (QEv.recResult false)).1.isSpeaking = true := by
  decide

/-- C1 amended: `speakText` stops the wake-word detector and the recognition
engine before handing the utterance to the synthesis engine, and while
`isSpeaking` is set the recognition `onend` handler schedules no restart.
Consequently, along every interleaving of recognition/wake handler and timer
events that contains no user activation of listening, no interruption and no
end of speech, the recognition engine never re-enters its running phase, and
the only recognition result that can still be processed is the single final
flush of audio captured before `speakText` stopped the engine — at most one
in total, and none once that flush is delivered or the engine `onend` has
fired.  This is the strongest mutual exclusion the code provides: a user
activation (mic click, Space, wake callback), which performs no `isSpeaking`
check, escapes it, as does the pre-stop flush itself.  The two hypotheses
are invariants of the flag discipline of the source: an engine only runs
while the active flag of its owner is set. -/
theorem speakText_quiet_mutex (s : SJState)
    (hrl : s.recPhase = RecPhase.running → s.isListening = true)
    (hwr : s.wakeRunning = true → s.wakeActive = true) :
    ((speakTextS s).1.wakeActive = false ∧
     (speakTextS s).1.recPhase ≠ RecPhase.running ∧
     (speakTextS s).1.isListening = false ∧
     (speakTextS s).1.isSpeaking = true) ∧
    (∀ t : List QEv, (runQ (speakTextS s).1 t).1.recPhase ≠ RecPhase.running) ∧
    (∀ t : List QEv,
       (runQ (speakTextS s).1 t).2 +
         ((runQ (speakTextS s).1 t).1.recFlush).toNat ≤
         ((speakTextS s).1.recFlush).toNat) ∧
    (∀ t : List QEv, (runQ (speakTextS s).1 t).2 ≤ 1) ∧
    (∀ s2 : SJState, s2.isSpeaking = true →
       (stepQ s2 QEv.recEnd).1.pendingRestart = s2.pendingRestart ∧
       (stepQ s2 QEv.recEnd).1.recPhase ≠ RecPhase.running) ∧
    (speakTextS s).2.getLast? = some SpeakEffect.speakReply ∧
    (s.isListening = true →
       (speakTextS s).2.indexOf SpeakEffect.stopRecognition <
         (speakTextS s).2.indexOf SpeakEffect.speakReply) ∧
    (s.wakeActive = true →
       (speakTextS s).2.indexOf SpeakEffect.stopWakeDetector <
         (speakTextS s).2.indexOf SpeakEffect.speakReply) := by
  have hq := speakTextS_quiet s hrl hwr
  obtain ⟨q1, q2, q3, q4, q5⟩ := hq
  refine ⟨⟨q4, q2, q1, q3⟩, ?_, ?_, ?_, ?_, ?_, ?_, ?_⟩
  · intro t
    exact (runQ_quiet _ t ⟨q1, q2, q3, q4, q5⟩).1.2.1
  · intro t
    exact (runQ_quiet _ t ⟨q1, q2, q3, q4, q5⟩).2
  · intro t
    have hb := (runQ_quiet _ t ⟨q1, q2, q3, q4, q5⟩).2
    have hf : ((speakTextS s).1.recFlush).toNat ≤ 1 := by
      cases hfl : (speakTextS s).1.recFlush <;> simp
    omega
  · intro s2 h2
    simp [stepQ, h2]
  · unfold speakTextS
    cases hwk : s.wakeActive <;> cases hl : s.isListening <;> simp [hwk, hl]
  · intro hl
    unfold speakTextS
    cases hwk : s.wakeActive <;> simp [hwk, hl]
  · intro hwk
    unfold speakTextS
    cases hl : s.isListening <;> simp [hwk, hl]

/-- Witness for `speakText_quiet_mutex` at the continuous-listening state,
with a sample quiet trace — including the pre-stop flush delivery —
exercised through the universal bound of the theorem. -/
theorem speakText_quiet_mutex_witness :
    ((speakTextS sjListening).1.wakeActive = false ∧
     (speakTextS sjListening).1.recPhase ≠ RecPhase.running ∧
     (speakTextS sjListening).1.isListening = false ∧
     (speakTextS sjListening).1.isSpeaking = true) ∧
    (runQ (speakTextS sjListening).1
      [QEv.recResult true, QEv.recEnd, QEv.restartTimer, QEv.wakeEnd,
       QEv.recErrNoSpeech, QEv.restartTimer, QEv.recResult false]).2 ≤ 1 :=
  have h := speakText_quiet_mutex sjListening (by decide) (by decide)
  ⟨h.1, h.2.2.2.1 _⟩

end Smartii
